import Mathlib

/-!
Shallow embedding of `buildscripts/resmokelib/utils/external_suite.py`.

The Python module mutates a nested, dynamically typed configuration
document (a "suite") in place.  We model the document as an association
list with string keys (Python dicts preserve insertion order and keys
are unique, so updating an existing key keeps its position and adding a
fresh key appends at the end), and we model in-place mutation by
explicit state passing.  Python exceptions become the error side of
`Except`; because the original code mutates in place, every step
function pairs the error with the state of the document at raise time,
so that partial mutation is observable.  `RuntimeError` is the
unsupported hook-shape error raised by `make_hooks_compatible` (its
message interpolates the offending first hook and points the user to a
support channel; we carry the offending value), `keyError` is a failed
subscript lookup such as `hook["class"]` on a mapping without that key,
and `typeError` stands for the dynamic attribute and type errors a
document outside the shape assumed by the code would trigger (for
example calling a dict method on a string).  Logging calls are
fire-and-forget warnings and are not modelled.
-/

namespace ExternalSuite

/-- Dynamic values of the configuration document: strings, booleans,
ordered sequences, and string-keyed mappings (the shapes the module
manipulates). -/
inductive Value where
  | str : String → Value
  | bool : Bool → Value
  | vlist : List Value → Value
  | dict : List (String × Value) → Value

/-- A Python dict with string keys, as an insertion-ordered association
list with unique keys. -/
abbrev Dict := List (String × Value)

/-- Python `d.get(k)` / `d[k]` lookup: first binding of the key. -/
def dictGet : Dict → String → Option Value
  | [], _ => none
  | (k', v) :: d, k => if k' = k then some v else dictGet d k

/-- Python `d[k] = v`: replace the value of an existing key in place,
otherwise append the new binding at the end. -/
def dictSet : Dict → String → Value → Dict
  | [], k, v => [(k, v)]
  | (k', v') :: d, k, v => if k' = k then (k', v) :: d else (k', v') :: dictSet d k v

/-- Python `d.pop(k, None)`: remove the binding of the key if present.
(Keys of a Python dict are unique, so removing every binding of the key
coincides with removing the one binding.) -/
def dictPop : Dict → String → Dict
  | [], _ => []
  | (k', v) :: d, k => if k' = k then dictPop d k else (k', v) :: dictPop d k

/-- Python truthiness of a document value: empty strings, `False`, empty
sequences and empty mappings are falsy, everything else is truthy. -/
def truthy : Value → Bool
  | .str s => !(s == "")
  | .bool b => b
  | .vlist xs => !xs.isEmpty
  | .dict m => !m.isEmpty

/-- Descend a path of keys through nested mappings, as in
`suite["executor"]["config"]...`; `none` when a key is missing or an
intermediate value is not a mapping. -/
def lookupPath : Dict → List String → Option Value
  | d, [] => some (Value.dict d)
  | d, [k] => dictGet d k
  | d, k :: ks =>
    match dictGet d k with
    | some (Value.dict d') => lookupPath d' ks
    | _ => none

/-- Python exceptions the module can raise.  `runtimeError` carries the
offending hook entry interpolated into the message of the `RuntimeError`
raised for an unknown hook structure. -/
inductive Err where
  | runtimeError : Value → Err
  | keyError : String → Err
  | typeError : Err

/-- Python `d.setdefault(k, {})` followed by use of the result as a
dict: the existing mapping bound to the key, a fresh empty mapping when
the key is absent, and a dynamic error when the key is bound to a
non-mapping. -/
def getDictDefault (d : Dict) (k : String) : Except Err Dict :=
  match dictGet d k with
  | none => .ok []
  | some (.dict d') => .ok d'
  | some _ => .error .typeError

/-- The fixed incompatible-hook set, `INCOMPATIBLE_HOOKS` in the source. -/
def INCOMPATIBLE_HOOKS : List String :=
  ["CleanEveryN", "ContinuousStepdown", "CheckOrphansDeleted"]

/-- Python `hook in INCOMPATIBLE_HOOKS` for a document value: true
exactly when the value is a string belonging to the list. -/
def isIncompatibleStr (h : Value) : Bool :=
  match h with
  | .str s => INCOMPATIBLE_HOOKS.contains s
  | _ => false

/-- Whether a structured hook entry has a `class` naming an incompatible
hook, i.e. Python `hook["class"] in INCOMPATIBLE_HOOKS` when the lookup
succeeds. -/
def classIsIncompatible (h : Value) : Bool :=
  match h with
  | .dict dh =>
    match dictGet dh "class" with
    | some c => isIncompatibleStr c
    | none => false
  | _ => false

/-- The list comprehension of the structured-hooks branch:
`[hook for hook in hooks if hook["class"] not in INCOMPATIBLE_HOOKS]`.
Elements are visited left to right; evaluating `hook["class"]` raises
`keyError` on a mapping without the key and `typeError` on a non-mapping
element, aborting the comprehension. -/
def classKeep : List Value → Except Err (List Value)
  | [] => .ok []
  | h :: rest =>
    match h with
    | .dict dh =>
      match dictGet dh "class" with
      | none => .error (.keyError "class")
      | some c =>
        match classKeep rest with
        | .error e => .error e
        | .ok rest' => .ok (if isIncompatibleStr c then rest' else h :: rest')
    | _ => .error .typeError

/-- Whether a document value is a plain string, i.e. Python
`isinstance(hook, str)`. -/
def isStr : Value → Bool
  | .str _ => true
  | _ => false

/-- Whether a document value is a mapping that has a `class` key, the
shape the structured-hooks branch consumes without error. -/
def isClassDict : Value → Bool
  | .dict dh => (dictGet dh "class").isSome
  | _ => false

/-- Whether a document value is a plain string or a mapping, the two
first-element shapes `make_hooks_compatible` dispatches on. -/
def isStrOrDict : Value → Bool
  | .str _ => true
  | .dict _ => true
  | _ => false

/-- The string `update_shell` starts from: the existing `eval` value
when it is a string, the empty string when `eval` is absent, and `none`
when a non-string `eval` would make the `+=` fail. -/
def evalBase (so : Dict) : Option String :=
  match dictGet so "eval" with
  | none => some ""
  | some (.str s) => some s
  | some _ => none

/-- `delete_archival(suite)`: pop `archive` from the top level, then pop
`archive` from the `executor` submapping obtained by
`suite.get("executor", {})` (a no-op on a fresh empty dict when
`executor` is absent). -/
def delete_archival (suite : Dict) : Except (Err × Dict) Dict :=
  let s := dictPop suite "archive"
  match dictGet s "executor" with
  | none => .ok s
  | some (.dict ex) => .ok (dictSet s "executor" (.dict (dictPop ex "archive")))
  | some _ => .error (.typeError, s)

/-- `make_hooks_compatible(suite)`: when `suite.get("executor",
{}).get("hooks", None)` is truthy, dispatch on the type of the first
element.  A string first element selects the plain-name branch, which
prepends `"AntithesisLogging"` and filters out entries equal to an
incompatible hook name; a mapping first element selects the structured
branch, which prepends `{class: AntithesisLogging}` and filters by the
`class` value; any other first element raises the `RuntimeError`.  A
truthy `hooks` value that is not a sequence is outside the shape the
code assumes (Python would subscript it) and is modelled as a dynamic
`typeError`, as is a non-mapping `executor` value. -/
def make_hooks_compatible (suite : Dict) : Except (Err × Dict) Dict :=
  match dictGet suite "executor" with
  | none => .ok suite
  | some (.dict ex) =>
    match dictGet ex "hooks" with
    | none => .ok suite
    | some hv =>
      if truthy hv then
        match hv with
        | .vlist [] => .ok suite
        | .vlist (h :: t) =>
          match h with
          | .str _ =>
            .ok (dictSet suite "executor" (.dict (dictSet ex "hooks" (.vlist
              (Value.str "AntithesisLogging" ::
                (h :: t).filter (fun x => !isIncompatibleStr x))))))
          | .dict _ =>
            match classKeep (h :: t) with
            | .error e => .error (e, suite)
            | .ok kept =>
              .ok (dictSet suite "executor" (.dict (dictSet ex "hooks" (.vlist
                (Value.dict [("class", Value.str "AntithesisLogging")] :: kept)))))
          | _ => .error (.runtimeError h, suite)
        | _ => .error (.typeError, suite)
      else .ok suite
  | some _ => .error (.typeError, suite)

/-- The `TestData` mapping after `update_test_data`:
`useActionPermittedFile` forced to `False`, everything else as before. -/
def tdLevel1 (td : Dict) : Dict :=
  dictSet td "useActionPermittedFile" (.bool false)

/-- The `global_vars` mapping after `update_test_data`. -/
def tdLevel2 (gv td : Dict) : Dict :=
  dictSet gv "TestData" (.dict (tdLevel1 td))

/-- The `shell_options` mapping after `update_test_data`. -/
def tdLevel3 (so gv td : Dict) : Dict :=
  dictSet so "global_vars" (.dict (tdLevel2 gv td))

/-- The `config` mapping after `update_test_data`. -/
def tdLevel4 (cfg so gv td : Dict) : Dict :=
  dictSet cfg "shell_options" (.dict (tdLevel3 so gv td))

/-- The `executor` mapping after `update_test_data`. -/
def tdLevel5 (ex cfg so gv td : Dict) : Dict :=
  dictSet ex "config" (.dict (tdLevel4 cfg so gv td))

/-- The document produced when `update_test_data` succeeds: each level
of `executor.config.shell_options.global_vars.TestData` is written back
with the next level updated, and `useActionPermittedFile` is set to
`False`. -/
def tdUpdateResult (suite ex cfg so gv td : Dict) : Dict :=
  dictSet suite "executor" (.dict (tdLevel5 ex cfg so gv td))

/-- `update_test_data(suite)`: the `setdefault` chain
`executor → config → shell_options → global_vars → TestData` creates
each missing intermediate mapping, then `update` forces
`useActionPermittedFile` to `False`.  An existing non-mapping value on
the path is a dynamic error, raised before any insertion (the chain only
errors when every level up to the offending one already existed). -/
def update_test_data (suite : Dict) : Except (Err × Dict) Dict :=
  match getDictDefault suite "executor" with
  | .error e => .error (e, suite)
  | .ok ex =>
    match getDictDefault ex "config" with
    | .error e => .error (e, suite)
    | .ok cfg =>
      match getDictDefault cfg "shell_options" with
      | .error e => .error (e, suite)
      | .ok so =>
        match getDictDefault so "global_vars" with
        | .error e => .error (e, suite)
        | .ok gv =>
          match getDictDefault gv "TestData" with
          | .error e => .error (e, suite)
          | .ok td => .ok (tdUpdateResult suite ex cfg so gv td)

/-- The literal statement appended by `update_shell`. -/
def jsTestLogStmt : String := "jsTestLog = Function.prototype;"

/-- The document produced when `update_shell` succeeds: the path down to
`shell_options` is written back with `eval` bound to the new string. -/
def shellUpdateResult (suite ex cfg so : Dict) (ev : String) : Dict :=
  dictSet suite "executor" (.dict (dictSet ex "config" (.dict
    (dictSet cfg "shell_options" (.dict
      (dictSet so "eval" (.str (ev ++ jsTestLogStmt))))))))

/-- `update_shell(suite)`: the `setdefault` chain ensures
`executor.config.shell_options` exists, `setdefault("eval", "")` makes
the `eval` field default to the empty string, and `+=` appends the
no-op redefinition of `jsTestLog`.  A non-string existing `eval` (or a
non-mapping on the path) is a dynamic error raised before any write. -/
def update_shell (suite : Dict) : Except (Err × Dict) Dict :=
  match getDictDefault suite "executor" with
  | .error e => .error (e, suite)
  | .ok ex =>
    match getDictDefault ex "config" with
    | .error e => .error (e, suite)
    | .ok cfg =>
      match getDictDefault cfg "shell_options" with
      | .error e => .error (e, suite)
      | .ok so =>
        match dictGet so "eval" with
        | none => .ok (shellUpdateResult suite ex cfg so "")
        | some (.str ev) => .ok (shellUpdateResult suite ex cfg so ev)
        | some _ => .error (.typeError, suite)

/-- The appended exclusion tag. -/
def antithesisTag : Value := Value.str "antithesis_incompatible"

/-- The document produced by a successful `update_exclude_tags`: the
`selector` mapping is written back with `exclude_with_any_tags` bound to
the new sequence. -/
def tagsUpdateResult (suite sel : Dict) (tags : List Value) : Dict :=
  dictSet suite "selector" (.dict (dictSet sel "exclude_with_any_tags" (.vlist tags)))

/-- `update_exclude_tags(suite)`: `setdefault` ensures `selector`
exists; when `selector.exclude_with_any_tags` is absent or falsy it is
replaced by the one-element sequence holding the tag, otherwise the tag
is appended to the existing sequence (`.append` on a truthy non-sequence
is a dynamic error). -/
def update_exclude_tags (suite : Dict) : Except (Err × Dict) Dict :=
  match getDictDefault suite "selector" with
  | .error e => .error (e, suite)
  | .ok sel =>
    match dictGet sel "exclude_with_any_tags" with
    | none => .ok (tagsUpdateResult suite sel [antithesisTag])
    | some v =>
      if truthy v then
        match v with
        | .vlist xs => .ok (tagsUpdateResult suite sel (xs ++ [antithesisTag]))
        | _ => .error (.typeError, suite)
      else .ok (tagsUpdateResult suite sel [antithesisTag])

/-- `make_external(suite)`: the five steps in their fixed order; the
first error aborts the pipeline and surfaces to the caller together with
the document state reached so far. -/
def make_external (suite : Dict) : Except (Err × Dict) Dict :=
  match delete_archival suite with
  | .error e => .error e
  | .ok s1 =>
    match make_hooks_compatible s1 with
    | .error e => .error e
    | .ok s2 =>
      match update_test_data s2 with
      | .error e => .error e
      | .ok s3 =>
        match update_shell s3 with
        | .error e => .error e
        | .ok s4 => update_exclude_tags s4

/-! Basic facts about the dictionary operations. -/

theorem dictGet_dictSet_self (d : Dict) (k : String) (v : Value) :
    dictGet (dictSet d k v) k = some v := by
  induction d with
  | nil => simp [dictSet, dictGet]
  | cons p d ih =>
    obtain ⟨a, b⟩ := p
    by_cases ha : a = k
    · simp [dictSet, dictGet, ha]
    · simp [dictSet, dictGet, ha, ih]

theorem dictGet_dictSet_ne (d : Dict) {k k' : String} (v : Value) (h : k' ≠ k) :
    dictGet (dictSet d k v) k' = dictGet d k' := by
  induction d with
  | nil => simp [dictSet, dictGet, Ne.symm h]
  | cons p d ih =>
    obtain ⟨a, b⟩ := p
    by_cases ha : a = k
    · subst ha
      simp [dictSet, dictGet, Ne.symm h]
    · simp [dictSet, dictGet, ha, ih]

theorem dictSet_dictSet_self (d : Dict) (k : String) (v w : Value) :
    dictSet (dictSet d k v) k w = dictSet d k w := by
  induction d with
  | nil => simp [dictSet]
  | cons p d ih =>
    obtain ⟨a, b⟩ := p
    by_cases ha : a = k
    · simp [dictSet, ha]
    · simp [dictSet, ha, ih]

theorem dictSet_eq_of_get {d : Dict} {k : String} {v : Value}
    (h : dictGet d k = some v) : dictSet d k v = d := by
  induction d with
  | nil => simp [dictGet] at h
  | cons p d ih =>
    obtain ⟨a, b⟩ := p
    by_cases ha : a = k
    · simp [dictGet, ha] at h
      simp [dictSet, ha, h]
    · simp [dictGet, ha] at h
      simp [dictSet, ha, ih h]

theorem dictGet_dictPop_self (d : Dict) (k : String) :
    dictGet (dictPop d k) k = none := by
  induction d with
  | nil => simp [dictPop, dictGet]
  | cons p d ih =>
    obtain ⟨a, b⟩ := p
    by_cases ha : a = k
    · simp [dictPop, ha, ih]
    · simp [dictPop, dictGet, ha, ih]

theorem dictPop_eq_of_get_none {d : Dict} {k : String}
    (h : dictGet d k = none) : dictPop d k = d := by
  induction d with
  | nil => simp [dictPop]
  | cons p d ih =>
    obtain ⟨a, b⟩ := p
    by_cases ha : a = k
    · simp [dictGet, ha] at h
    · simp [dictGet, ha] at h
      simp [dictPop, ha, ih h]

theorem dictGet_dictPop_ne (d : Dict) {k k' : String} (h : k' ≠ k) :
    dictGet (dictPop d k) k' = dictGet d k' := by
  induction d with
  | nil => simp [dictPop]
  | cons p d ih =>
    obtain ⟨a, b⟩ := p
    by_cases ha : a = k
    · subst ha
      simp [dictPop, dictGet, Ne.symm h, ih]
    · simp [dictPop, dictGet, ha, ih]

/-! Facts about the structured-hooks comprehension. -/

theorem classKeep_eq_filter (hooks : List Value) (h : hooks.all isClassDict = true) :
    classKeep hooks = .ok (hooks.filter (fun x => !classIsIncompatible x)) := by
  induction hooks with
  | nil => rfl
  | cons x rest ih =>
    rw [List.all_cons, Bool.and_eq_true] at h
    obtain ⟨hx, hrest⟩ := h
    cases x with
    | dict dh =>
      obtain ⟨c, hc⟩ := Option.isSome_iff_exists.mp (by simpa [isClassDict] using hx)
      by_cases hb : isIncompatibleStr c = true
      · simp [classKeep, hc, ih hrest, List.filter_cons, classIsIncompatible, hb]
      · simp [classKeep, hc, ih hrest, List.filter_cons, classIsIncompatible, hb]
    | str a => simp [isClassDict] at hx
    | bool b => simp [isClassDict] at hx
    | vlist l => simp [isClassDict] at hx

theorem classKeep_append_keyError (pre : List Value) (d : Dict) (t : List Value)
    (hpre : pre.all isClassDict = true) (hd : dictGet d "class" = none) :
    classKeep (pre ++ Value.dict d :: t) = .error (.keyError "class") := by
  induction pre with
  | nil => simp [classKeep, hd]
  | cons x pre ih =>
    rw [List.all_cons, Bool.and_eq_true] at hpre
    obtain ⟨hx, hrest⟩ := hpre
    cases x with
    | dict dh =>
      obtain ⟨c, hc⟩ := Option.isSome_iff_exists.mp (by simpa [isClassDict] using hx)
      simp [classKeep, hc, ih hrest]
    | str a => simp [isClassDict] at hx
    | bool b => simp [isClassDict] at hx
    | vlist l => simp [isClassDict] at hx

/-- Inverting a successful `delete_archival`: whatever the input was,
the result has no top-level `archive` key and no `executor.archive`
key. -/
theorem delete_archival_ok_inv {s s₁ : Dict} (h : delete_archival s = .ok s₁) :
    dictGet s₁ "archive" = none ∧ lookupPath s₁ ["executor", "archive"] = none := by
  cases hg : dictGet (dictPop s "archive") "executor" with
  | none =>
    simp only [delete_archival, hg, Except.ok.injEq] at h
    subst h
    exact ⟨dictGet_dictPop_self s "archive", by simp [lookupPath, hg]⟩
  | some v =>
    cases v with
    | dict ex =>
      simp only [delete_archival, hg, Except.ok.injEq] at h
      subst h
      refine ⟨?_, ?_⟩
      · rw [dictGet_dictSet_ne _ _ (by decide)]
        exact dictGet_dictPop_self s "archive"
      · simp [lookupPath, dictGet_dictSet_self, dictGet_dictPop_self]
    | str a => simp [delete_archival, hg] at h
    | bool b => simp [delete_archival, hg] at h
    | vlist l => simp [delete_archival, hg] at h

/-- C3: for every document (with `executor`, when present, a mapping, as
in the documented document shape), `delete_archival` succeeds and
afterwards neither the top-level `archive` key nor the
`executor.archive` key is present; when the keys were already absent the
removal is a no-op on them, and applying `delete_archival` to the result
returns it unchanged, so repeated application is harmless. -/
theorem c3_delete_archival_removes_archive (s ex : Dict) :
    (dictGet s "executor" = none →
      delete_archival s = .ok (dictPop s "archive") ∧
      dictGet (dictPop s "archive") "archive" = none ∧
      lookupPath (dictPop s "archive") ["executor", "archive"] = none ∧
      delete_archival (dictPop s "archive") = .ok (dictPop s "archive")) ∧
    (dictGet s "executor" = some (.dict ex) →
      delete_archival s =
        .ok (dictSet (dictPop s "archive") "executor" (.dict (dictPop ex "archive"))) ∧
      dictGet (dictSet (dictPop s "archive") "executor" (.dict (dictPop ex "archive")))
        "archive" = none ∧
      lookupPath (dictSet (dictPop s "archive") "executor" (.dict (dictPop ex "archive")))
        ["executor", "archive"] = none ∧
      delete_archival (dictSet (dictPop s "archive") "executor" (.dict (dictPop ex "archive"))) =
        .ok (dictSet (dictPop s "archive") "executor" (.dict (dictPop ex "archive")))) := by
  constructor
  · intro h
    have hg : dictGet (dictPop s "archive") "executor" = none := by
      rw [dictGet_dictPop_ne s (show "executor" ≠ "archive" by decide)]
      exact h
    refine ⟨by simp only [delete_archival, hg], dictGet_dictPop_self s "archive",
      by simp [lookupPath, hg], ?_⟩
    simp only [delete_archival, dictPop_eq_of_get_none (dictGet_dictPop_self s "archive"), hg]
  · intro h
    have hg : dictGet (dictPop s "archive") "executor" = some (.dict ex) := by
      rw [dictGet_dictPop_ne s (show "executor" ≠ "archive" by decide)]
      exact h
    have hBarch :
        dictGet (dictSet (dictPop s "archive") "executor" (.dict (dictPop ex "archive")))
          "archive" = none := by
      rw [dictGet_dictSet_ne _ _ (show "archive" ≠ "executor" by decide)]
      exact dictGet_dictPop_self s "archive"
    have hBex :
        dictGet (dictSet (dictPop s "archive") "executor" (.dict (dictPop ex "archive")))
          "executor" = some (.dict (dictPop ex "archive")) :=
      dictGet_dictSet_self _ _ _
    refine ⟨by simp only [delete_archival, hg], hBarch,
      by simp [lookupPath, hBex, dictGet_dictPop_self], ?_⟩
    simp only [delete_archival, dictPop_eq_of_get_none hBarch, hBex,
      dictPop_eq_of_get_none (dictGet_dictPop_self ex "archive"), dictSet_dictSet_self]

/-- Witness for C3 at a document carrying both `archive` keys. -/
theorem c3_witness :
    delete_archival
        [("archive", Value.bool true), ("executor", Value.dict [("archive", Value.bool true)])] =
      .ok [("executor", Value.dict [])] :=
  ((c3_delete_archival_removes_archive
      [("archive", Value.bool true), ("executor", Value.dict [("archive", Value.bool true)])]
      [("archive", Value.bool true)]).2 rfl).1

/-- C8: for every document in which `executor.hooks` is absent or the
empty sequence (with `executor`, when present, a mapping),
`make_hooks_compatible` returns the document itself unchanged — in
particular it creates no `executor` or `hooks` entry — and raises no
error. -/
theorem c8_hooks_absent_or_empty_no_change (s ex : Dict) :
    (dictGet s "executor" = none → make_hooks_compatible s = .ok s) ∧
    (dictGet s "executor" = some (.dict ex) → dictGet ex "hooks" = none →
      make_hooks_compatible s = .ok s) ∧
    (dictGet s "executor" = some (.dict ex) → dictGet ex "hooks" = some (.vlist []) →
      make_hooks_compatible s = .ok s) := by
  refine ⟨fun h => ?_, fun h hh => ?_, fun h hh => ?_⟩
  · simp only [make_hooks_compatible, h]
  · simp only [make_hooks_compatible, h, hh]
  · simp [make_hooks_compatible, h, hh, truthy]

/-- Witness for C8 at a document with an empty hooks sequence. -/
theorem c8_witness :
    make_hooks_compatible [("executor", Value.dict [("hooks", Value.vlist [])])] =
      .ok [("executor", Value.dict [("hooks", Value.vlist [])])] :=
  (c8_hooks_absent_or_empty_no_change
      [("executor", Value.dict [("hooks", Value.vlist [])])] [("hooks", Value.vlist [])]).2.2
    rfl rfl

/-- C2: for every non-empty `executor.hooks` sequence whose elements are
uniformly plain strings, or uniformly mappings carrying a `class` key,
`make_hooks_compatible` replaces the sequence by the canonical
`AntithesisLogging` hook in the style of the first element, followed by
the original hooks whose identifying name is not in the incompatible
set, in their original relative order (the filter preserves order), and
changes nothing else in the document. -/
theorem c2_uniform_hooks_normalized (s ex : Dict) (hooks : List Value)
    (hs : dictGet s "executor" = some (.dict ex))
    (hh : dictGet ex "hooks" = some (.vlist hooks))
    (hne : hooks ≠ []) :
    (hooks.all isStr = true →
      make_hooks_compatible s = .ok (dictSet s "executor" (.dict (dictSet ex "hooks" (.vlist
        (Value.str "AntithesisLogging" ::
          hooks.filter (fun x => !isIncompatibleStr x))))))) ∧
    (hooks.all isClassDict = true →
      make_hooks_compatible s = .ok (dictSet s "executor" (.dict (dictSet ex "hooks" (.vlist
        (Value.dict [("class", Value.str "AntithesisLogging")] ::
          hooks.filter (fun x => !classIsIncompatible x))))))) := by
  obtain ⟨h0, t, rfl⟩ : ∃ h0 t, hooks = h0 :: t := by
    cases hooks with
    | nil => exact absurd rfl hne
    | cons a l => exact ⟨a, l, rfl⟩
  constructor
  · intro hall
    rw [List.all_cons, Bool.and_eq_true] at hall
    obtain ⟨h1, _⟩ := hall
    cases h0 with
    | str a => simp [make_hooks_compatible, hs, hh, truthy]
    | bool b => simp [isStr] at h1
    | vlist l => simp [isStr] at h1
    | dict dh => simp [isStr] at h1
  · intro hall
    have hck := classKeep_eq_filter (h0 :: t) hall
    rw [List.all_cons, Bool.and_eq_true] at hall
    obtain ⟨h1, _⟩ := hall
    cases h0 with
    | dict dh => simp [make_hooks_compatible, hs, hh, truthy, hck]
    | str a => simp [isClassDict] at h1
    | bool b => simp [isClassDict] at h1
    | vlist l => simp [isClassDict] at h1

/-- Witness for C2 at the two example hook sequences of the claim: the
plain list loses `CleanEveryN` and `ContinuousStepdown` and gains
`AntithesisLogging` in front, the structured list loses
`CheckOrphansDeleted` and gains the structured canonical hook. -/
theorem c2_witness :
    make_hooks_compatible [("executor", Value.dict [("hooks", Value.vlist
        [Value.str "CleanEveryN", Value.str "X", Value.str "ContinuousStepdown"])])] =
      .ok [("executor", Value.dict [("hooks", Value.vlist
        [Value.str "AntithesisLogging", Value.str "X"])])] ∧
    make_hooks_compatible [("executor", Value.dict [("hooks", Value.vlist
        [Value.dict [("class", Value.str "CheckOrphansDeleted")],
         Value.dict [("class", Value.str "Y")]])])] =
      .ok [("executor", Value.dict [("hooks", Value.vlist
        [Value.dict [("class", Value.str "AntithesisLogging")],
         Value.dict [("class", Value.str "Y")]])])] :=
  ⟨(c2_uniform_hooks_normalized
      [("executor", Value.dict [("hooks", Value.vlist
        [Value.str "CleanEveryN", Value.str "X", Value.str "ContinuousStepdown"])])]
      [("hooks", Value.vlist
        [Value.str "CleanEveryN", Value.str "X", Value.str "ContinuousStepdown"])]
      [Value.str "CleanEveryN", Value.str "X", Value.str "ContinuousStepdown"]
      rfl rfl (List.cons_ne_nil _ _)).1 rfl,
   (c2_uniform_hooks_normalized
      [("executor", Value.dict [("hooks", Value.vlist
        [Value.dict [("class", Value.str "CheckOrphansDeleted")],
         Value.dict [("class", Value.str "Y")]])])]
      [("hooks", Value.vlist
        [Value.dict [("class", Value.str "CheckOrphansDeleted")],
         Value.dict [("class", Value.str "Y")]])]
      [Value.dict [("class", Value.str "CheckOrphansDeleted")],
       Value.dict [("class", Value.str "Y")]]
      rfl rfl (List.cons_ne_nil _ _)).2 rfl⟩

/-- Counterexample to C1 as stated: the hooks list mixing one plain
string and one mapping is neither all strings nor all mappings, yet
`make_hooks_compatible` does not raise the unsupported-shape error — the
first element is a string, so the plain-name branch runs, keeps the
mapping (it equals no incompatible name), and the whole pipeline
continues and succeeds. -/
theorem c1_counterexample :
    make_hooks_compatible [("executor", Value.dict [("hooks", Value.vlist
        [Value.str "X", Value.dict [("class", Value.str "Y")]])])] =
      .ok [("executor", Value.dict [("hooks", Value.vlist
        [Value.str "AntithesisLogging", Value.str "X",
         Value.dict [("class", Value.str "Y")]])])] ∧
    make_external [("executor", Value.dict [("hooks", Value.vlist
        [Value.str "X", Value.dict [("class", Value.str "Y")]])])] =
      .ok [("executor", Value.dict [
            ("hooks", Value.vlist [Value.str "AntithesisLogging", Value.str "X",
              Value.dict [("class", Value.str "Y")]]),
            ("config", Value.dict [("shell_options", Value.dict [
              ("global_vars", Value.dict [("TestData", Value.dict
                [("useActionPermittedFile", Value.bool false)])]),
              ("eval", Value.str "jsTestLog = Function.prototype;")])])]),
          ("selector", Value.dict
            [("exclude_with_any_tags", Value.vlist [Value.str "antithesis_incompatible"])])] :=
  ⟨rfl, rfl⟩

/-- C1 as amended: the unsupported-shape `RuntimeError` is raised
exactly when the first element of a non-empty hooks list is neither a
plain string nor a mapping; in that case it carries the offending first
element, and the orchestrator applies no further step — the error
surfaces from `make_external` with the document exactly as
`delete_archival` left it. -/
theorem c1_unknown_first_hook_raises (s ex : Dict) (h0 : Value) (t : List Value)
    (hs : dictGet s "executor" = some (.dict ex))
    (hh : dictGet ex "hooks" = some (.vlist (h0 :: t)))
    (hbad : isStrOrDict h0 = false) :
    make_hooks_compatible s = .error (.runtimeError h0, s) ∧
    delete_archival s =
      .ok (dictSet (dictPop s "archive") "executor" (.dict (dictPop ex "archive"))) ∧
    make_external s =
      .error (.runtimeError h0,
        dictSet (dictPop s "archive") "executor" (.dict (dictPop ex "archive"))) := by
  have hg : dictGet (dictPop s "archive") "executor" = some (.dict ex) := by
    rw [dictGet_dictPop_ne s (show "executor" ≠ "archive" by decide)]
    exact hs
  have hdel : delete_archival s =
      .ok (dictSet (dictPop s "archive") "executor" (.dict (dictPop ex "archive"))) := by
    simp only [delete_archival, hg]
  have hBex :
      dictGet (dictSet (dictPop s "archive") "executor" (.dict (dictPop ex "archive")))
        "executor" = some (.dict (dictPop ex "archive")) :=
    dictGet_dictSet_self _ _ _
  have hBhooks : dictGet (dictPop ex "archive") "hooks" = some (.vlist (h0 :: t)) := by
    rw [dictGet_dictPop_ne ex (show "hooks" ≠ "archive" by decide)]
    exact hh
  have hmhc : ∀ s' ex' : Dict, dictGet s' "executor" = some (.dict ex') →
      dictGet ex' "hooks" = some (.vlist (h0 :: t)) →
      make_hooks_compatible s' = .error (.runtimeError h0, s') := by
    intro s' ex' hs' hh'
    cases h0 with
    | bool b => simp [make_hooks_compatible, hs', hh', truthy]
    | vlist l => simp [make_hooks_compatible, hs', hh', truthy]
    | str a => simp [isStrOrDict] at hbad
    | dict dh => simp [isStrOrDict] at hbad
  refine ⟨hmhc s ex hs hh, hdel, ?_⟩
  simp only [make_external, hdel, hmhc _ _ hBex hBhooks]

/-- Witness for the amended C1 at a hooks list starting with a boolean. -/
theorem c1_witness :
    make_external [("executor", Value.dict [("hooks", Value.vlist [Value.bool true])])] =
      .error (.runtimeError (Value.bool true),
        [("executor", Value.dict [("hooks", Value.vlist [Value.bool true])])]) :=
  (c1_unknown_first_hook_raises
      [("executor", Value.dict [("hooks", Value.vlist [Value.bool true])])]
      [("hooks", Value.vlist [Value.bool true])] (Value.bool true) []
      rfl rfl rfl).2.2

/-- Counterexample to C10 as stated: the hooks list
`[{class: A}, "x", {}]` has a mapping as first element and a later
mapping lacking `class`, but the comprehension reaches the plain string
`"x"` first, and subscripting a string raises the dynamic type error,
not the key-lookup error for `class` (and not the `RuntimeError`
either). -/
theorem c10_counterexample :
    make_hooks_compatible [("executor", Value.dict [("hooks", Value.vlist
        [Value.dict [("class", Value.str "A")], Value.str "x", Value.dict []])])] =
      .error (.typeError,
        [("executor", Value.dict [("hooks", Value.vlist
          [Value.dict [("class", Value.str "A")], Value.str "x", Value.dict []])])]) ∧
    Err.typeError ≠ Err.keyError "class" :=
  ⟨rfl, by simp⟩

/-- C10 as amended: when the first element of the hooks list is a
mapping and every element before the first `class`-less mapping is a
mapping carrying `class`, `make_hooks_compatible` raises the key-lookup
error for `"class"` coming from the subscript `hook["class"]` — not the
unsupported-shape `RuntimeError` — and leaves the document unchanged at
raise time. -/
theorem c10_classless_mapping_keyError (s ex : Dict) (pre : List Value) (d : Dict)
    (t : List Value)
    (hs : dictGet s "executor" = some (.dict ex))
    (hh : dictGet ex "hooks" = some (.vlist (pre ++ Value.dict d :: t)))
    (hpre : pre.all isClassDict = true)
    (hd : dictGet d "class" = none) :
    make_hooks_compatible s = .error (.keyError "class", s) := by
  have hck := classKeep_append_keyError pre d t hpre hd
  cases pre with
  | nil =>
    simp only [List.nil_append] at hh hck
    simp [make_hooks_compatible, hs, hh, truthy, hck]
  | cons x pre' =>
    rw [List.all_cons, Bool.and_eq_true] at hpre
    obtain ⟨hx, _⟩ := hpre
    cases x with
    | dict dh =>
      simp only [List.cons_append] at hh hck
      simp [make_hooks_compatible, hs, hh, truthy, hck]
    | str a => simp [isClassDict] at hx
    | bool b => simp [isClassDict] at hx
    | vlist l => simp [isClassDict] at hx

/-- Witness for the amended C10: a hooks list of mappings in which the
second one lacks `class`. -/
theorem c10_witness :
    make_hooks_compatible [("executor", Value.dict [("hooks", Value.vlist
        [Value.dict [("class", Value.str "A")], Value.dict [], Value.str "x"])])] =
      .error (.keyError "class",
        [("executor", Value.dict [("hooks", Value.vlist
          [Value.dict [("class", Value.str "A")], Value.dict [], Value.str "x"])])]) :=
  c10_classless_mapping_keyError
    [("executor", Value.dict [("hooks", Value.vlist
      [Value.dict [("class", Value.str "A")], Value.dict [], Value.str "x"])])]
    [("hooks", Value.vlist
      [Value.dict [("class", Value.str "A")], Value.dict [], Value.str "x"])]
    [Value.dict [("class", Value.str "A")]] [] [Value.str "x"]
    rfl rfl rfl rfl

/-- C4: whenever the `setdefault` chain of `update_test_data` finds
mappings (or nothing) along the path — in particular on the empty
document, where every intermediate mapping is created — the call
succeeds, afterwards
`executor.config.shell_options.global_vars.TestData.useActionPermittedFile`
is `False` whatever its prior value was, and applying `update_test_data`
to the result returns it unchanged: the operation is idempotent. -/
theorem c4_update_test_data_idempotent (s ex cfg so gv td : Dict)
    (h1 : getDictDefault s "executor" = .ok ex)
    (h2 : getDictDefault ex "config" = .ok cfg)
    (h3 : getDictDefault cfg "shell_options" = .ok so)
    (h4 : getDictDefault so "global_vars" = .ok gv)
    (h5 : getDictDefault gv "TestData" = .ok td) :
    update_test_data s = .ok (tdUpdateResult s ex cfg so gv td) ∧
    lookupPath (tdUpdateResult s ex cfg so gv td)
      ["executor", "config", "shell_options", "global_vars", "TestData",
       "useActionPermittedFile"] = some (.bool false) ∧
    update_test_data (tdUpdateResult s ex cfg so gv td) =
      .ok (tdUpdateResult s ex cfg so gv td) := by
  refine ⟨?_, ?_, ?_⟩
  · simp only [update_test_data, h1, h2, h3, h4, h5]
  · simp [tdUpdateResult, tdLevel5, tdLevel4, tdLevel3, tdLevel2, tdLevel1,
      lookupPath, dictGet_dictSet_self]
  · simp only [update_test_data, tdUpdateResult, tdLevel5, tdLevel4, tdLevel3, tdLevel2,
      tdLevel1, getDictDefault, dictGet_dictSet_self, dictSet_dictSet_self]

/-- Witness for C4 at the empty document. -/
theorem c4_witness :
    update_test_data [] = .ok (tdUpdateResult [] [] [] [] [] []) ∧
    lookupPath (tdUpdateResult [] [] [] [] [] [])
      ["executor", "config", "shell_options", "global_vars", "TestData",
       "useActionPermittedFile"] = some (.bool false) ∧
    update_test_data (tdUpdateResult [] [] [] [] [] []) =
      .ok (tdUpdateResult [] [] [] [] [] []) :=
  c4_update_test_data_idempotent [] [] [] [] [] [] rfl rfl rfl rfl rfl

/-- C9: when the whole path
`executor.config.shell_options.global_vars.TestData` already exists as
mappings, `update_test_data` succeeds and, at every level of the written
result, every key other than the one it rewrites keeps exactly its prior
value: `TestData` keeps every field except `useActionPermittedFile`, and
the intermediate mappings and the document keep all sibling fields. -/
theorem c9_update_test_data_frame (s ex cfg so gv td : Dict)
    (h1 : dictGet s "executor" = some (.dict ex))
    (h2 : dictGet ex "config" = some (.dict cfg))
    (h3 : dictGet cfg "shell_options" = some (.dict so))
    (h4 : dictGet so "global_vars" = some (.dict gv))
    (h5 : dictGet gv "TestData" = some (.dict td)) :
    update_test_data s = .ok (tdUpdateResult s ex cfg so gv td) ∧
    dictGet (tdLevel1 td) "useActionPermittedFile" = some (.bool false) ∧
    (∀ k, k ≠ "useActionPermittedFile" → dictGet (tdLevel1 td) k = dictGet td k) ∧
    (∀ k, k ≠ "TestData" → dictGet (tdLevel2 gv td) k = dictGet gv k) ∧
    (∀ k, k ≠ "global_vars" → dictGet (tdLevel3 so gv td) k = dictGet so k) ∧
    (∀ k, k ≠ "shell_options" → dictGet (tdLevel4 cfg so gv td) k = dictGet cfg k) ∧
    (∀ k, k ≠ "config" → dictGet (tdLevel5 ex cfg so gv td) k = dictGet ex k) ∧
    (∀ k, k ≠ "executor" → dictGet (tdUpdateResult s ex cfg so gv td) k = dictGet s k) := by
  refine ⟨?_, dictGet_dictSet_self _ _ _, fun k hk => dictGet_dictSet_ne td _ hk,
    fun k hk => dictGet_dictSet_ne gv _ hk, fun k hk => dictGet_dictSet_ne so _ hk,
    fun k hk => dictGet_dictSet_ne cfg _ hk, fun k hk => dictGet_dictSet_ne ex _ hk,
    fun k hk => dictGet_dictSet_ne s _ hk⟩
  simp only [update_test_data, getDictDefault, h1, h2, h3, h4, h5]

/-- Witness for C9 at a populated document: the sibling field `foo` of
the document and the pre-existing `TestData.other` field survive, while
`useActionPermittedFile` is overwritten from `True` to `False`. -/
theorem c9_witness :
    update_test_data
        [("foo", Value.str "keep"), ("executor", Value.dict [("config", Value.dict
          [("shell_options", Value.dict [("global_vars", Value.dict
            [("TestData", Value.dict [("other", Value.bool true),
              ("useActionPermittedFile", Value.bool true)])])])])])] =
      .ok (tdUpdateResult
        [("foo", Value.str "keep"), ("executor", Value.dict [("config", Value.dict
          [("shell_options", Value.dict [("global_vars", Value.dict
            [("TestData", Value.dict [("other", Value.bool true),
              ("useActionPermittedFile", Value.bool true)])])])])])]
        [("config", Value.dict [("shell_options", Value.dict [("global_vars", Value.dict
          [("TestData", Value.dict [("other", Value.bool true),
            ("useActionPermittedFile", Value.bool true)])])])])]
        [("shell_options", Value.dict [("global_vars", Value.dict
          [("TestData", Value.dict [("other", Value.bool true),
            ("useActionPermittedFile", Value.bool true)])])])]
        [("global_vars", Value.dict [("TestData", Value.dict [("other", Value.bool true),
          ("useActionPermittedFile", Value.bool true)])])]
        [("TestData", Value.dict [("other", Value.bool true),
          ("useActionPermittedFile", Value.bool true)])]
        [("other", Value.bool true), ("useActionPermittedFile", Value.bool true)]) ∧
    dictGet (tdLevel1 [("other", Value.bool true),
        ("useActionPermittedFile", Value.bool true)]) "other" =
      dictGet [("other", Value.bool true), ("useActionPermittedFile", Value.bool true)]
        "other" ∧
    dictGet (tdLevel1 [("other", Value.bool true),
        ("useActionPermittedFile", Value.bool true)]) "useActionPermittedFile" =
      some (.bool false) := by
  obtain ⟨hok, hforce, hframe, -⟩ :=
    c9_update_test_data_frame
      [("foo", Value.str "keep"), ("executor", Value.dict [("config", Value.dict
        [("shell_options", Value.dict [("global_vars", Value.dict
          [("TestData", Value.dict [("other", Value.bool true),
            ("useActionPermittedFile", Value.bool true)])])])])])]
      [("config", Value.dict [("shell_options", Value.dict [("global_vars", Value.dict
        [("TestData", Value.dict [("other", Value.bool true),
          ("useActionPermittedFile", Value.bool true)])])])])]
      [("shell_options", Value.dict [("global_vars", Value.dict
        [("TestData", Value.dict [("other", Value.bool true),
          ("useActionPermittedFile", Value.bool true)])])])]
      [("global_vars", Value.dict [("TestData", Value.dict [("other", Value.bool true),
        ("useActionPermittedFile", Value.bool true)])])]
      [("TestData", Value.dict [("other", Value.bool true),
        ("useActionPermittedFile", Value.bool true)])]
      [("other", Value.bool true), ("useActionPermittedFile", Value.bool true)]
      rfl rfl rfl rfl rfl
  exact ⟨hok, hframe "other" (by decide), hforce⟩

/-- C5: `update_shell` is not idempotent.  Whenever it succeeds the
resulting `executor.config.shell_options.eval` is the prior string
(empty when `eval` was absent) with the literal no-op `jsTestLog`
statement appended, so it always ends with that statement; and applying
`update_shell` twice to the empty document yields an `eval` string that
is the statement twice over. -/
theorem c5_update_shell_appends_statement :
    (∀ (s ex cfg so : Dict) (ev : String),
      getDictDefault s "executor" = .ok ex →
      getDictDefault ex "config" = .ok cfg →
      getDictDefault cfg "shell_options" = .ok so →
      evalBase so = some ev →
      update_shell s = .ok (shellUpdateResult s ex cfg so ev) ∧
      lookupPath (shellUpdateResult s ex cfg so ev)
        ["executor", "config", "shell_options", "eval"] =
        some (.str (ev ++ jsTestLogStmt))) ∧
    update_shell [] =
      .ok [("executor", Value.dict [("config", Value.dict
        [("shell_options", Value.dict [("eval", Value.str jsTestLogStmt)])])])] ∧
    update_shell [("executor", Value.dict [("config", Value.dict
        [("shell_options", Value.dict [("eval", Value.str jsTestLogStmt)])])])] =
      .ok [("executor", Value.dict [("config", Value.dict [("shell_options", Value.dict
        [("eval", Value.str (jsTestLogStmt ++ jsTestLogStmt))])])])] := by
  refine ⟨?_, rfl, rfl⟩
  intro s ex cfg so ev h1 h2 h3 hev
  have hmain : update_shell s = .ok (shellUpdateResult s ex cfg so ev) := by
    cases hv : dictGet so "eval" with
    | none =>
      simp only [evalBase, hv, Option.some.injEq] at hev
      subst hev
      simp only [update_shell, h1, h2, h3, hv]
    | some v =>
      cases v with
      | str a =>
        simp only [evalBase, hv, Option.some.injEq] at hev
        subst hev
        simp only [update_shell, h1, h2, h3, hv]
      | bool b => simp [evalBase, hv] at hev
      | vlist l => simp [evalBase, hv] at hev
      | dict m => simp [evalBase, hv] at hev
  exact ⟨hmain, by simp [shellUpdateResult, lookupPath, dictGet_dictSet_self]⟩

/-- Witness for C5 at a document whose `eval` already holds a script:
the statement is appended after it. -/
theorem c5_witness :
    update_shell [("executor", Value.dict [("config", Value.dict
        [("shell_options", Value.dict [("eval", Value.str "load();")])])])] =
      .ok (shellUpdateResult
        [("executor", Value.dict [("config", Value.dict
          [("shell_options", Value.dict [("eval", Value.str "load();")])])])]
        [("config", Value.dict [("shell_options", Value.dict
          [("eval", Value.str "load();")])])]
        [("shell_options", Value.dict [("eval", Value.str "load();")])]
        [("eval", Value.str "load();")] "load();") ∧
    lookupPath (shellUpdateResult
        [("executor", Value.dict [("config", Value.dict
          [("shell_options", Value.dict [("eval", Value.str "load();")])])])]
        [("config", Value.dict [("shell_options", Value.dict
          [("eval", Value.str "load();")])])]
        [("shell_options", Value.dict [("eval", Value.str "load();")])]
        [("eval", Value.str "load();")] "load();")
      ["executor", "config", "shell_options", "eval"] =
      some (.str ("load();" ++ jsTestLogStmt)) :=
  c5_update_shell_appends_statement.1
    [("executor", Value.dict [("config", Value.dict
      [("shell_options", Value.dict [("eval", Value.str "load();")])])])]
    [("config", Value.dict [("shell_options", Value.dict
      [("eval", Value.str "load();")])])]
    [("shell_options", Value.dict [("eval", Value.str "load();")])]
    [("eval", Value.str "load();")] "load();"
    rfl rfl rfl rfl

/-- C6: with `selector` a mapping or absent, when
`selector.exclude_with_any_tags` is absent or falsy,
`update_exclude_tags` sets it to the one-element sequence holding
`antithesis_incompatible`; when it is a non-empty sequence, the tag is
appended after the existing entries, which are neither removed nor
reordered. -/
theorem c6_update_exclude_tags (s sel : Dict)
    (hsel : getDictDefault s "selector" = .ok sel) :
    (dictGet sel "exclude_with_any_tags" = none →
      update_exclude_tags s = .ok (tagsUpdateResult s sel [antithesisTag])) ∧
    (∀ v, dictGet sel "exclude_with_any_tags" = some v → truthy v = false →
      update_exclude_tags s = .ok (tagsUpdateResult s sel [antithesisTag])) ∧
    (∀ xs, dictGet sel "exclude_with_any_tags" = some (.vlist xs) → xs ≠ [] →
      update_exclude_tags s = .ok (tagsUpdateResult s sel (xs ++ [antithesisTag]))) ∧
    lookupPath (tagsUpdateResult s sel [antithesisTag])
      ["selector", "exclude_with_any_tags"] = some (.vlist [antithesisTag]) := by
  refine ⟨fun h => ?_, fun v hv htr => ?_, fun xs hxs hne => ?_, ?_⟩
  · simp only [update_exclude_tags, hsel, h]
  · simp only [update_exclude_tags, hsel, hv, htr, Bool.false_eq_true, if_false]
  · cases xs with
    | nil => exact absurd rfl hne
    | cons a l => simp [update_exclude_tags, hsel, hxs, truthy]
  · simp [tagsUpdateResult, lookupPath, dictGet_dictSet_self]

/-- Witness for C6 at the two example documents of the claim: one with
`exclude_with_any_tags == [foo]` and one with no `selector` at all. -/
theorem c6_witness :
    update_exclude_tags [("selector", Value.dict
        [("exclude_with_any_tags", Value.vlist [Value.str "foo"])])] =
      .ok [("selector", Value.dict [("exclude_with_any_tags",
        Value.vlist [Value.str "foo", Value.str "antithesis_incompatible"])])] ∧
    update_exclude_tags [] =
      .ok [("selector", Value.dict [("exclude_with_any_tags",
        Value.vlist [Value.str "antithesis_incompatible"])])] :=
  ⟨(c6_update_exclude_tags
      [("selector", Value.dict
        [("exclude_with_any_tags", Value.vlist [Value.str "foo"])])]
      [("exclude_with_any_tags", Value.vlist [Value.str "foo"])] rfl).2.2.1
      [Value.str "foo"] rfl (List.cons_ne_nil _ _),
   (c6_update_exclude_tags [] [] rfl).1 rfl⟩

/-- C7: `make_external` is not atomic.  Whenever `delete_archival` has
produced an intermediate document on which `make_hooks_compatible`
raises, the error propagates out of `make_external` uncaught, carrying
the document exactly as the archival step left it: both `archive` keys
are already gone, and the test-data, shell and exclude-tag steps have
not touched it. -/
theorem c7_make_external_not_atomic (s s₁ : Dict) (e : Err)
    (hdel : delete_archival s = .ok s₁)
    (hhook : make_hooks_compatible s₁ = .error (e, s₁)) :
    make_external s = .error (e, s₁) ∧
    dictGet s₁ "archive" = none ∧
    lookupPath s₁ ["executor", "archive"] = none := by
  refine ⟨?_, (delete_archival_ok_inv hdel).1, (delete_archival_ok_inv hdel).2⟩
  simp only [make_external, hdel, hhook]

/-- Witness for C7 at a document that carries both `archive` keys and a
hooks list whose first element is a boolean. -/
theorem c7_witness :
    make_external [("archive", Value.bool true), ("executor", Value.dict
        [("archive", Value.bool true), ("hooks", Value.vlist [Value.bool true])])] =
      .error (.runtimeError (Value.bool true),
        [("executor", Value.dict [("hooks", Value.vlist [Value.bool true])])]) ∧
    dictGet [("executor", Value.dict [("hooks", Value.vlist [Value.bool true])])]
      "archive" = none ∧
    lookupPath [("executor", Value.dict [("hooks", Value.vlist [Value.bool true])])]
      ["executor", "archive"] = none :=
  c7_make_external_not_atomic
    [("archive", Value.bool true), ("executor", Value.dict
      [("archive", Value.bool true), ("hooks", Value.vlist [Value.bool true])])]
    [("executor", Value.dict [("hooks", Value.vlist [Value.bool true])])]
    (.runtimeError (Value.bool true)) rfl rfl

end ExternalSuite
